import Mathlib

/-!
Shallow embedding of a small in-process bank ledger (source: exception.py).

An `Account` record mirrors the Python `Account.__init__` fields; the ledger
state (`BankState`) mirrors `BankSystem.accounts`, a mapping from account
number to account.  Each operation returns the raised error or its result
together with the posterior state; since Python mutates the objects held by
the dictionary, mutation is modelled by updating the map entry, and the three
sequential mutations inside `transfer` are three sequential map updates so
that aliasing (a transfer from an account to itself) behaves exactly as the
object mutations do.
-/

attribute [local semireducible] Rat.add Rat.sub

structure Account where
  number : String
  holder : String
  balance : ℚ
  type : String
  daily_limit : ℚ
  total_withdrawn_today : ℚ
  withdraw_count : Nat
  deriving DecidableEq, Repr

instance exceptDecEq {e a : Type} [DecidableEq e] [DecidableEq a] :
    DecidableEq (Except e a) := fun x y =>
  match x, y with
  | Except.error u, Except.error v =>
    if h : u = v then Decidable.isTrue (by rw [h]) else Decidable.isFalse (by simp [h])
  | Except.ok u, Except.ok v =>
    if h : u = v then Decidable.isTrue (by rw [h]) else Decidable.isFalse (by simp [h])
  | Except.error _, Except.ok _ => Decidable.isFalse (by simp)
  | Except.ok _, Except.error _ => Decidable.isFalse (by simp)

/-- The exception classes of the source, as a tagged error type with the
same constructor payloads. -/
inductive BankError where
  | insufficientFunds (account_number : String) (amount : ℚ) (balance : ℚ)
  | negativeAmount (amount : ℚ)
  | zeroAmount
  | dailyLimitExceeded (account_number : String) (amount : ℚ) (remaining_limit : ℚ)
  | accountNotFound (account_number : String)
  | invalidAccountType (account_number : String) (account_type : String)
  deriving DecidableEq, Repr

/-- `BankSystem.accounts`: the mapping from account number to account. -/
def BankState : Type := String → Option Account

/-- Replace the entry stored under `key`. -/
def setAccount (s : BankState) (key : String) (a : Account) : BankState :=
  fun n => if n = key then some a else s n

/-- Mutate the account object stored under `key` (models a field assignment
through an object reference held in the dictionary). -/
def modifyAccount (s : BankState) (key : String) (f : Account → Account) : BankState :=
  fun n => if n = key then Option.map f (s n) else s n

/-- `Account.__init__`: fresh accounts start with
`total_withdrawn_today = 0.0` and `withdraw_count = 0`. -/
def Account.create (number holder : String) (balance : ℚ) (acc_type : String)
    (daily_limit : ℚ) : Account :=
  { number := number, holder := holder, balance := balance, type := acc_type,
    daily_limit := daily_limit, total_withdrawn_today := 0, withdraw_count := 0 }

/-- `BankSystem.add_account`. -/
def add_account (s : BankState) (account : Account) : BankState :=
  setAccount s account.number account

/-- `BankSystem.get_account`. -/
def getAccount (s : BankState) (account_number : String) : Except BankError Account :=
  match s account_number with
  | none => Except.error (BankError.accountNotFound account_number)
  | some a => Except.ok a

def savingsType : String := "Savings"

/-- `BankSystem.deposit`.  Returns the raised error or `()`, paired with the
posterior state. -/
def deposit (s : BankState) (account_number : String) (amount : ℚ) :
    Except BankError Unit × BankState :=
  if amount < 0 then (Except.error (BankError.negativeAmount amount), s)
  else if amount = 0 then (Except.error BankError.zeroAmount, s)
  else match getAccount s account_number with
    | Except.error e => (Except.error e, s)
    | Except.ok account =>
      (Except.ok (), setAccount s account_number
        { account with balance := account.balance + amount })

/-- `BankSystem.withdraw`. -/
def withdraw (s : BankState) (account_number : String) (amount : ℚ) :
    Except BankError Unit × BankState :=
  if amount < 0 then (Except.error (BankError.negativeAmount amount), s)
  else if amount = 0 then (Except.error BankError.zeroAmount, s)
  else match getAccount s account_number with
    | Except.error e => (Except.error e, s)
    | Except.ok account =>
      if account.type = savingsType ∧ account.withdraw_count ≥ 3 then
        (Except.error (BankError.invalidAccountType account.number account.type), s)
      else if account.balance < amount then
        (Except.error (BankError.insufficientFunds account.number amount account.balance), s)
      else if account.total_withdrawn_today + amount > account.daily_limit then
        (Except.error (BankError.dailyLimitExceeded account.number amount
          (account.daily_limit - account.total_withdrawn_today)), s)
      else
        (Except.ok (), setAccount s account_number
          { account with
            balance := account.balance - amount,
            total_withdrawn_today := account.total_withdrawn_today + amount,
            withdraw_count := account.withdraw_count + 1 })

/-- `BankSystem.transfer`.  The three mutation statements of the source are
three sequential updates, so a self-transfer (sender = receiver) applies all
three to the same account. -/
def transfer (s : BankState) (from_account to_account : String) (amount : ℚ) :
    Except BankError Unit × BankState :=
  if amount < 0 then (Except.error (BankError.negativeAmount amount), s)
  else if amount = 0 then (Except.error BankError.zeroAmount, s)
  else match getAccount s from_account with
    | Except.error e => (Except.error e, s)
    | Except.ok sender =>
      match getAccount s to_account with
      | Except.error e => (Except.error e, s)
      | Except.ok _receiver =>
        if sender.balance < amount then
          (Except.error (BankError.insufficientFunds sender.number amount sender.balance), s)
        else if sender.total_withdrawn_today + amount > sender.daily_limit then
          (Except.error (BankError.dailyLimitExceeded sender.number amount
            (sender.daily_limit - sender.total_withdrawn_today)), s)
        else
          (Except.ok (),
            modifyAccount
              (modifyAccount
                (modifyAccount s from_account
                  (fun a => { a with balance := a.balance - amount }))
                to_account
                (fun a => { a with balance := a.balance + amount }))
              from_account
              (fun a => { a with
                total_withdrawn_today := a.total_withdrawn_today + amount }))

/-- `BankSystem.check_balance`: returns the balance, never mutates. -/
def check_balance (s : BankState) (account_number : String) :
    Except BankError ℚ × BankState :=
  match getAccount s account_number with
  | Except.error e => (Except.error e, s)
  | Except.ok account => (Except.ok account.balance, s)

/-- One ledger call, as issued by a driver. -/
inductive Op where
  | deposit (account_number : String) (amount : ℚ)
  | withdraw (account_number : String) (amount : ℚ)
  | transfer (from_account to_account : String) (amount : ℚ)
  | check_balance (account_number : String)
  deriving DecidableEq, Repr

/-- Apply one call; whether it succeeds or raises, the posterior state is
kept (the driver catches every exception and continues). -/
def applyOp (s : BankState) : Op → BankState
  | Op.deposit n amt => (deposit s n amt).2
  | Op.withdraw n amt => (withdraw s n amt).2
  | Op.transfer f t amt => (transfer s f t amt).2
  | Op.check_balance n => (check_balance s n).2

/-- Run a sequence of calls. -/
def runOps (s : BankState) : List Op → BankState
  | [] => s
  | op :: ops => runOps (applyOp s op) ops

/-- Every stored balance is nonnegative. -/
def BalancesNonneg (s : BankState) : Prop :=
  ∀ n a, s n = some a → 0 ≤ a.balance

/-- Every stored running daily total is within the daily limit. -/
def TotalsWithinLimit (s : BankState) : Prop :=
  ∀ n a, s n = some a → a.total_withdrawn_today ≤ a.daily_limit

/-- The immutable metadata fields agree. -/
def sameMeta (a b : Account) : Prop :=
  a.number = b.number ∧ a.holder = b.holder ∧ a.type = b.type ∧
    a.daily_limit = b.daily_limit

def emptyState : BankState := fun _ => none

def accNum1 : String := "ACC001"
def accNum2 : String := "ACC002"
def accNum3 : String := "ACC003"
def accNum999 : String := "ACC999"
def holder1 : String := "John Doe"
def holder2 : String := "Jane Smith"
def holder3 : String := "Bob Wilson"
def checkingType : String := "Checking"

/-- The three bootstrap accounts of the source. -/
def bankInit : BankState :=
  add_account
    (add_account
      (add_account emptyState (Account.create accNum1 holder1 5000 savingsType 1000))
      (Account.create accNum2 holder2 15000 checkingType 5000))
    (Account.create accNum3 holder3 500 savingsType 500)

/-- The nine driver scenarios of the source, as one call sequence. -/
def demoOps : List Op :=
  [Op.deposit accNum1 500, Op.deposit accNum1 (-100), Op.withdraw accNum2 0,
   Op.withdraw accNum3 600, Op.withdraw accNum1 800, Op.withdraw accNum1 500,
   Op.withdraw accNum999 100, Op.transfer accNum2 accNum1 200,
   Op.transfer accNum1 accNum2 2000]

/-- A ledger holding one freshly created Savings account. -/
def savState : BankState :=
  add_account emptyState (Account.create accNum1 holder1 5000 savingsType 1000)

/-- The same ledger after three successful withdraw calls. -/
def savAfter3 : BankState :=
  runOps savState
    [Op.withdraw accNum1 100, Op.withdraw accNum1 100, Op.withdraw accNum1 100]

/-- A ledger holding one freshly created account whose daily limit is
negative. -/
def negLimState : BankState :=
  add_account emptyState (Account.create accNum1 holder1 100 checkingType (-1))

/-! ## Basic lemmas -/

lemma getAccount_ok {s : BankState} {n : String} {a : Account}
    (h : getAccount s n = Except.ok a) : s n = some a := by
  unfold getAccount at h
  cases hs : s n
  · rw [hs] at h
    exact absurd h (by simp)
  · rw [hs] at h
    simp only [Except.ok.injEq] at h
    rw [h]

lemma amount_pos {amt : ℚ} (h1 : ¬ amt < 0) (h2 : ¬ amt = 0) : 0 < amt :=
  lt_of_le_of_ne (not_lt.mp h1) (Ne.symm h2)

lemma setAccount_apply (s : BankState) (k : String) (a : Account) (n : String) :
    setAccount s k a n = if n = k then some a else s n := rfl

lemma modifyAccount_apply (s : BankState) (k : String) (f : Account → Account)
    (n : String) :
    modifyAccount s k f n = if n = k then Option.map f (s n) else s n := rfl

lemma check_balance_snd (s : BankState) (n : String) : (check_balance s n).2 = s := by
  unfold check_balance
  cases hg : getAccount s n <;> rfl

lemma balancesNonneg_setAccount {s : BankState} {k : String} {a : Account}
    (h : BalancesNonneg s) (ha : 0 ≤ a.balance) :
    BalancesNonneg (setAccount s k a) := by
  intro m b hb
  simp only [setAccount] at hb
  by_cases hm : m = k
  · rw [if_pos hm] at hb
    cases hb
    exact ha
  · rw [if_neg hm] at hb
    exact h m b hb

lemma deposit_nonneg {s : BankState} (n : String) (amt : ℚ)
    (h : BalancesNonneg s) : BalancesNonneg (deposit s n amt).2 := by
  unfold deposit
  by_cases h1 : amt < 0
  · simpa [h1] using h
  by_cases h2 : amt = 0
  · simpa [h1, h2] using h
  cases hg : getAccount s n with
  | error e => simpa [h1, h2, hg] using h
  | ok account =>
    have hacc := getAccount_ok hg
    have hpos := amount_pos h1 h2
    have hbal := h n account hacc
    rw [if_neg h1, if_neg h2]
    exact balancesNonneg_setAccount h (by simpa using add_nonneg hbal hpos.le)

lemma withdraw_nonneg {s : BankState} (n : String) (amt : ℚ)
    (h : BalancesNonneg s) : BalancesNonneg (withdraw s n amt).2 := by
  unfold withdraw
  by_cases h1 : amt < 0
  · simpa [h1] using h
  by_cases h2 : amt = 0
  · simpa [h1, h2] using h
  cases hg : getAccount s n with
  | error e => simpa [h1, h2, hg] using h
  | ok account =>
    by_cases h3 : account.type = savingsType ∧ account.withdraw_count ≥ 3
    · simpa [h1, h2, h3] using h
    by_cases h4 : account.balance < amt
    · simpa [h1, h2, h3, h4] using h
    by_cases h5 : account.total_withdrawn_today + amt > account.daily_limit
    · simpa [h1, h2, h3, h4, h5] using h
    simp only [h1, h2, h3, h4, h5, if_false, ite_false]
    exact balancesNonneg_setAccount h (by simpa using sub_nonneg.mpr (not_lt.mp h4))

lemma transfer_nonneg {s : BankState} (f t : String) (amt : ℚ)
    (h : BalancesNonneg s) : BalancesNonneg (transfer s f t amt).2 := by
  unfold transfer
  by_cases h1 : amt < 0
  · simpa [h1] using h
  by_cases h2 : amt = 0
  · simpa [h1, h2] using h
  cases hgf : getAccount s f with
  | error e => simpa [h1, h2, hgf] using h
  | ok sender =>
    cases hgt : getAccount s t with
    | error e => simpa [h1, h2, hgf, hgt] using h
    | ok receiver =>
      by_cases h3 : sender.balance < amt
      · simpa [h1, h2, h3] using h
      by_cases h4 : sender.total_withdrawn_today + amt > sender.daily_limit
      · simpa [h1, h2, h3, h4] using h
      have hsf := getAccount_ok hgf
      have hst := getAccount_ok hgt
      have hpos := amount_pos h1 h2
      simp only [h1, h2, h3, h4, if_false, ite_false]
      intro m b hb
      simp only [modifyAccount] at hb
      by_cases hmf : m = f
      · subst hmf
        by_cases hmt : m = t
        · subst hmt
          simp only [if_pos rfl, hsf, Option.map_some] at hb
          cases hb
          have hw : sender.balance - amt + amt = sender.balance := by ring
          simpa [hw] using h m sender hsf
        · simp only [if_pos rfl, if_neg hmt, hsf, Option.map_some] at hb
          cases hb
          simpa using sub_nonneg.mpr (not_lt.mp h3)
      · by_cases hmt : m = t
        · subst hmt
          simp only [if_neg hmf, if_pos rfl, hst, Option.map_some] at hb
          cases hb
          simpa using add_nonneg (h m receiver hst) hpos.le
        · simp only [if_neg hmf, if_neg hmt] at hb
          exact h m b hb

lemma totalsWithin_setAccount {s : BankState} {k : String} {a : Account}
    (h : TotalsWithinLimit s) (ha : a.total_withdrawn_today ≤ a.daily_limit) :
    TotalsWithinLimit (setAccount s k a) := by
  intro m b hb
  simp only [setAccount] at hb
  by_cases hm : m = k
  · rw [if_pos hm] at hb
    cases hb
    exact ha
  · rw [if_neg hm] at hb
    exact h m b hb

lemma deposit_totals {s : BankState} (n : String) (amt : ℚ)
    (h : TotalsWithinLimit s) : TotalsWithinLimit (deposit s n amt).2 := by
  unfold deposit
  by_cases h1 : amt < 0
  · simpa [h1] using h
  by_cases h2 : amt = 0
  · simpa [h1, h2] using h
  cases hg : getAccount s n with
  | error e => simpa [h1, h2, hg] using h
  | ok account =>
    have hacc := getAccount_ok hg
    rw [if_neg h1, if_neg h2]
    exact totalsWithin_setAccount h (by simpa using h n account hacc)

lemma withdraw_totals {s : BankState} (n : String) (amt : ℚ)
    (h : TotalsWithinLimit s) : TotalsWithinLimit (withdraw s n amt).2 := by
  unfold withdraw
  by_cases h1 : amt < 0
  · simpa [h1] using h
  by_cases h2 : amt = 0
  · simpa [h1, h2] using h
  cases hg : getAccount s n with
  | error e => simpa [h1, h2, hg] using h
  | ok account =>
    by_cases h3 : account.type = savingsType ∧ account.withdraw_count ≥ 3
    · simpa [h1, h2, h3] using h
    by_cases h4 : account.balance < amt
    · simpa [h1, h2, h3, h4] using h
    by_cases h5 : account.total_withdrawn_today + amt > account.daily_limit
    · simpa [h1, h2, h3, h4, h5] using h
    simp only [h1, h2, h3, h4, h5, if_false, ite_false]
    exact totalsWithin_setAccount h (by simpa using not_lt.mp h5)

lemma transfer_totals {s : BankState} (f t : String) (amt : ℚ)
    (h : TotalsWithinLimit s) : TotalsWithinLimit (transfer s f t amt).2 := by
  unfold transfer
  by_cases h1 : amt < 0
  · simpa [h1] using h
  by_cases h2 : amt = 0
  · simpa [h1, h2] using h
  cases hgf : getAccount s f with
  | error e => simpa [h1, h2, hgf] using h
  | ok sender =>
    cases hgt : getAccount s t with
    | error e => simpa [h1, h2, hgf, hgt] using h
    | ok receiver =>
      by_cases h3 : sender.balance < amt
      · simpa [h1, h2, h3] using h
      by_cases h4 : sender.total_withdrawn_today + amt > sender.daily_limit
      · simpa [h1, h2, h3, h4] using h
      have hsf := getAccount_ok hgf
      have hst := getAccount_ok hgt
      simp only [h1, h2, h3, h4, if_false, ite_false]
      intro m b hb
      simp only [modifyAccount] at hb
      by_cases hmf : m = f
      · subst hmf
        by_cases hmt : m = t
        · subst hmt
          simp only [if_pos rfl, hsf, Option.map_some] at hb
          cases hb
          simpa using not_lt.mp h4
        · simp only [if_pos rfl, if_neg hmt, hsf, Option.map_some] at hb
          cases hb
          simpa using not_lt.mp h4
      · by_cases hmt : m = t
        · subst hmt
          simp only [if_neg hmf, if_pos rfl, hst, Option.map_some] at hb
          cases hb
          simpa using h m receiver hst
        · simp only [if_neg hmf, if_neg hmt] at hb
          exact h m b hb

lemma applyOp_nonneg {s : BankState} (op : Op) (h : BalancesNonneg s) :
    BalancesNonneg (applyOp s op) := by
  cases op with
  | deposit n amt => exact deposit_nonneg n amt h
  | withdraw n amt => exact withdraw_nonneg n amt h
  | transfer f t amt => exact transfer_nonneg f t amt h
  | check_balance n =>
    show BalancesNonneg (check_balance s n).2
    rw [check_balance_snd]
    exact h

lemma applyOp_totals {s : BankState} (op : Op) (h : TotalsWithinLimit s) :
    TotalsWithinLimit (applyOp s op) := by
  cases op with
  | deposit n amt => exact deposit_totals n amt h
  | withdraw n amt => exact withdraw_totals n amt h
  | transfer f t amt => exact transfer_totals f t amt h
  | check_balance n =>
    show TotalsWithinLimit (check_balance s n).2
    rw [check_balance_snd]
    exact h

lemma runOps_nonneg {s : BankState} (ops : List Op) (h : BalancesNonneg s) :
    BalancesNonneg (runOps s ops) := by
  induction ops generalizing s with
  | nil => exact h
  | cons op ops ih => exact ih (applyOp_nonneg op h)

lemma runOps_totals {s : BankState} (ops : List Op) (h : TotalsWithinLimit s) :
    TotalsWithinLimit (runOps s ops) := by
  induction ops generalizing s with
  | nil => exact h
  | cons op ops ih => exact ih (applyOp_totals op h)

lemma deposit_error_snd {s : BankState} {n : String} {amt : ℚ} {e : BankError}
    (h : (deposit s n amt).1 = Except.error e) : (deposit s n amt).2 = s := by
  unfold deposit at h ⊢
  by_cases h1 : amt < 0
  · simp [h1]
  by_cases h2 : amt = 0
  · simp [h1, h2]
  cases hg : getAccount s n with
  | error err => simp [h1, h2]
  | ok account => simp [h1, h2, hg] at h

lemma withdraw_error_snd {s : BankState} {n : String} {amt : ℚ} {e : BankError}
    (h : (withdraw s n amt).1 = Except.error e) : (withdraw s n amt).2 = s := by
  unfold withdraw at h ⊢
  by_cases h1 : amt < 0
  · simp [h1]
  by_cases h2 : amt = 0
  · simp [h1, h2]
  cases hg : getAccount s n with
  | error err => simp [h1, h2]
  | ok account =>
    by_cases h3 : account.type = savingsType ∧ account.withdraw_count ≥ 3
    · simp [h1, h2, h3]
    by_cases h4 : account.balance < amt
    · simp [h1, h2, h3, h4]
    by_cases h5 : account.total_withdrawn_today + amt > account.daily_limit
    · simp [h1, h2, h3, h4, h5]
    simp [h1, h2, h3, h4, h5, hg] at h

lemma transfer_error_snd {s : BankState} {f t : String} {amt : ℚ} {e : BankError}
    (h : (transfer s f t amt).1 = Except.error e) : (transfer s f t amt).2 = s := by
  unfold transfer at h ⊢
  by_cases h1 : amt < 0
  · simp [h1]
  by_cases h2 : amt = 0
  · simp [h1, h2]
  cases hgf : getAccount s f with
  | error err => simp [h1, h2]
  | ok sender =>
    cases hgt : getAccount s t with
    | error err => simp [h1, h2]
    | ok receiver =>
      by_cases h3 : sender.balance < amt
      · simp [h1, h2, h3]
      by_cases h4 : sender.total_withdrawn_today + amt > sender.daily_limit
      · simp [h1, h2, h3, h4]
      simp [h1, h2, h3, h4, hgf, hgt] at h

lemma getAccount_of_some {s : BankState} {n : String} {a : Account}
    (h : s n = some a) : getAccount s n = Except.ok a := by
  unfold getAccount
  rw [h]

lemma deposit_ok_eq {s : BankState} {n : String} {amt : ℚ} {account : Account}
    (hpos : 0 < amt) (hacc : s n = some account) :
    deposit s n amt =
      (Except.ok (), setAccount s n { account with balance := account.balance + amt }) := by
  have h1 : ¬ amt < 0 := not_lt.mpr hpos.le
  have h2 : ¬ amt = 0 := hpos.ne.symm
  unfold deposit
  rw [if_neg h1, if_neg h2, getAccount_of_some hacc]

lemma withdraw_ok_eq {s : BankState} {n : String} {amt : ℚ} {account : Account}
    (hpos : 0 < amt) (hacc : s n = some account)
    (h3 : ¬ (account.type = savingsType ∧ account.withdraw_count ≥ 3))
    (h4 : ¬ account.balance < amt)
    (h5 : ¬ account.total_withdrawn_today + amt > account.daily_limit) :
    withdraw s n amt =
      (Except.ok (), setAccount s n
        { account with
          balance := account.balance - amt,
          total_withdrawn_today := account.total_withdrawn_today + amt,
          withdraw_count := account.withdraw_count + 1 }) := by
  have h1 : ¬ amt < 0 := not_lt.mpr hpos.le
  have h2 : ¬ amt = 0 := hpos.ne.symm
  unfold withdraw
  simp only [if_neg h1, if_neg h2, getAccount_of_some hacc, if_neg h3, if_neg h4, if_neg h5]

lemma transfer_ok_eq {s : BankState} {f t : String} {amt : ℚ}
    {sender receiver : Account}
    (hpos : 0 < amt) (hsf : s f = some sender) (hst : s t = some receiver)
    (h3 : ¬ sender.balance < amt)
    (h4 : ¬ sender.total_withdrawn_today + amt > sender.daily_limit) :
    transfer s f t amt =
      (Except.ok (),
        modifyAccount
          (modifyAccount
            (modifyAccount s f (fun a => { a with balance := a.balance - amt }))
            t (fun a => { a with balance := a.balance + amt }))
          f (fun a => { a with
              total_withdrawn_today := a.total_withdrawn_today + amt })) := by
  have h1 : ¬ amt < 0 := not_lt.mpr hpos.le
  have h2 : ¬ amt = 0 := hpos.ne.symm
  unfold transfer
  simp only [if_neg h1, if_neg h2, getAccount_of_some hsf, getAccount_of_some hst,
    if_neg h3, if_neg h4]

lemma sameMeta_refl (a : Account) : sameMeta a a := ⟨rfl, rfl, rfl, rfl⟩

lemma sameMeta_trans {a b c : Account} (h1 : sameMeta a b) (h2 : sameMeta b c) :
    sameMeta a c :=
  ⟨h1.1.trans h2.1, h1.2.1.trans h2.2.1, h1.2.2.1.trans h2.2.2.1,
    h1.2.2.2.trans h2.2.2.2⟩

lemma deposit_frame {s : BankState} {n : String} {amt : ℚ} {m : String}
    (hm : m ≠ n) : (deposit s n amt).2 m = s m := by
  unfold deposit
  by_cases h1 : amt < 0
  · simp [h1]
  by_cases h2 : amt = 0
  · simp [h1, h2]
  cases hg : getAccount s n with
  | error err => simp [h1, h2]
  | ok account => simp [h1, h2, setAccount, hm]

lemma withdraw_frame {s : BankState} {n : String} {amt : ℚ} {m : String}
    (hm : m ≠ n) : (withdraw s n amt).2 m = s m := by
  unfold withdraw
  by_cases h1 : amt < 0
  · simp [h1]
  by_cases h2 : amt = 0
  · simp [h1, h2]
  cases hg : getAccount s n with
  | error err => simp [h1, h2]
  | ok account =>
    by_cases h3 : account.type = savingsType ∧ account.withdraw_count ≥ 3
    · simp [h1, h2, h3]
    by_cases h4 : account.balance < amt
    · simp [h1, h2, h3, h4]
    by_cases h5 : account.total_withdrawn_today + amt > account.daily_limit
    · simp [h1, h2, h3, h4, h5]
    simp [h1, h2, h3, h4, h5, setAccount, hm]

lemma transfer_frame {s : BankState} {f t : String} {amt : ℚ} {m : String}
    (hmf : m ≠ f) (hmt : m ≠ t) : (transfer s f t amt).2 m = s m := by
  unfold transfer
  by_cases h1 : amt < 0
  · simp [h1]
  by_cases h2 : amt = 0
  · simp [h1, h2]
  cases hgf : getAccount s f with
  | error err => simp [h1, h2]
  | ok sender =>
    cases hgt : getAccount s t with
    | error err => simp [h1, h2]
    | ok receiver =>
      by_cases h3 : sender.balance < amt
      · simp [h1, h2, h3]
      by_cases h4 : sender.total_withdrawn_today + amt > sender.daily_limit
      · simp [h1, h2, h3, h4]
      simp [h1, h2, h3, h4, modifyAccount, hmf, hmt]

lemma setAccount_meta {s : BankState} {k : String} {c : Account} {m : String}
    {a b : Account} (hc : ∀ x, s k = some x → sameMeta x c)
    (ha : s m = some a) (hb : setAccount s k c m = some b) : sameMeta a b := by
  simp only [setAccount] at hb
  by_cases hm : m = k
  · rw [if_pos hm] at hb
    cases hb
    exact hc a (hm ▸ ha)
  · rw [if_neg hm] at hb
    rw [ha] at hb
    cases hb
    exact sameMeta_refl a

lemma modifyAccount_meta_some {s : BankState} {k : String} {g : Account → Account}
    {m : String} {a : Account} (hg : ∀ x, sameMeta x (g x)) (ha : s m = some a) :
    ∃ c, modifyAccount s k g m = some c ∧ sameMeta a c := by
  simp only [modifyAccount]
  by_cases hm : m = k
  · rw [if_pos hm, ha]
    exact ⟨g a, rfl, hg a⟩
  · rw [if_neg hm]
    exact ⟨a, ha, sameMeta_refl a⟩

lemma deposit_meta {s : BankState} {n : String} {amt : ℚ} {m : String}
    {a b : Account} (ha : s m = some a) (hb : (deposit s n amt).2 m = some b) :
    sameMeta a b := by
  unfold deposit at hb
  by_cases h1 : amt < 0
  · simp only [if_pos h1] at hb
    rw [ha] at hb
    cases hb
    exact sameMeta_refl a
  by_cases h2 : amt = 0
  · simp only [if_neg h1, if_pos h2] at hb
    rw [ha] at hb
    cases hb
    exact sameMeta_refl a
  cases hg : getAccount s n with
  | error err =>
    simp only [if_neg h1, if_neg h2, hg] at hb
    rw [ha] at hb
    cases hb
    exact sameMeta_refl a
  | ok account =>
    simp only [if_neg h1, if_neg h2, hg] at hb
    refine setAccount_meta (fun x hx => ?_) ha hb
    have hacc := getAccount_ok hg
    rw [hacc] at hx
    cases hx
    exact ⟨rfl, rfl, rfl, rfl⟩

lemma withdraw_meta {s : BankState} {n : String} {amt : ℚ} {m : String}
    {a b : Account} (ha : s m = some a) (hb : (withdraw s n amt).2 m = some b) :
    sameMeta a b := by
  unfold withdraw at hb
  by_cases h1 : amt < 0
  · simp only [if_pos h1] at hb
    rw [ha] at hb
    cases hb
    exact sameMeta_refl a
  by_cases h2 : amt = 0
  · simp only [if_neg h1, if_pos h2] at hb
    rw [ha] at hb
    cases hb
    exact sameMeta_refl a
  cases hg : getAccount s n with
  | error err =>
    simp only [if_neg h1, if_neg h2, hg] at hb
    rw [ha] at hb
    cases hb
    exact sameMeta_refl a
  | ok account =>
    simp only [if_neg h1, if_neg h2, hg] at hb
    by_cases h3 : account.type = savingsType ∧ account.withdraw_count ≥ 3
    · simp only [if_pos h3] at hb
      rw [ha] at hb
      cases hb
      exact sameMeta_refl a
    by_cases h4 : account.balance < amt
    · simp only [if_neg h3, if_pos h4] at hb
      rw [ha] at hb
      cases hb
      exact sameMeta_refl a
    by_cases h5 : account.total_withdrawn_today + amt > account.daily_limit
    · simp only [if_neg h3, if_neg h4, if_pos h5] at hb
      rw [ha] at hb
      cases hb
      exact sameMeta_refl a
    simp only [if_neg h3, if_neg h4, if_neg h5] at hb
    refine setAccount_meta (fun x hx => ?_) ha hb
    have hacc := getAccount_ok hg
    rw [hacc] at hx
    cases hx
    exact ⟨rfl, rfl, rfl, rfl⟩

lemma transfer_meta {s : BankState} {f t : String} {amt : ℚ} {m : String}
    {a b : Account} (ha : s m = some a) (hb : (transfer s f t amt).2 m = some b) :
    sameMeta a b := by
  unfold transfer at hb
  by_cases h1 : amt < 0
  · simp only [if_pos h1] at hb
    rw [ha] at hb
    cases hb
    exact sameMeta_refl a
  by_cases h2 : amt = 0
  · simp only [if_neg h1, if_pos h2] at hb
    rw [ha] at hb
    cases hb
    exact sameMeta_refl a
  cases hgf : getAccount s f with
  | error err =>
    simp only [if_neg h1, if_neg h2, hgf] at hb
    rw [ha] at hb
    cases hb
    exact sameMeta_refl a
  | ok sender =>
    cases hgt : getAccount s t with
    | error err =>
      simp only [if_neg h1, if_neg h2, hgf, hgt] at hb
      rw [ha] at hb
      cases hb
      exact sameMeta_refl a
    | ok receiver =>
      simp only [if_neg h1, if_neg h2, hgf, hgt] at hb
      by_cases h3 : sender.balance < amt
      · simp only [if_pos h3] at hb
        rw [ha] at hb
        cases hb
        exact sameMeta_refl a
      by_cases h4 : sender.total_withdrawn_today + amt > sender.daily_limit
      · simp only [if_neg h3, if_pos h4] at hb
        rw [ha] at hb
        cases hb
        exact sameMeta_refl a
      simp only [if_neg h3, if_neg h4] at hb
      obtain ⟨c1, hc1, hm1⟩ :=
        modifyAccount_meta_some (k := f)
          (g := fun x => { x with balance := x.balance - amt })
          (fun x => ⟨rfl, rfl, rfl, rfl⟩) ha
      obtain ⟨c2, hc2, hm2⟩ :=
        modifyAccount_meta_some (k := t)
          (g := fun x => { x with balance := x.balance + amt })
          (fun x => ⟨rfl, rfl, rfl, rfl⟩) hc1
      obtain ⟨c3, hc3, hm3⟩ :=
        modifyAccount_meta_some (k := f)
          (g := fun x => { x with
            total_withdrawn_today := x.total_withdrawn_today + amt })
          (fun x => ⟨rfl, rfl, rfl, rfl⟩) hc2
      rw [hc3] at hb
      cases hb
      exact sameMeta_trans hm1 (sameMeta_trans hm2 hm3)

lemma bankInit_nonneg : BalancesNonneg bankInit := by
  intro n a h
  simp only [bankInit, add_account, setAccount, Account.create] at h
  split_ifs at h
  · cases h
    norm_num
  · cases h
    norm_num
  · cases h
    norm_num
  · exact absurd h (by simp [emptyState])

lemma bankInit_totals : TotalsWithinLimit bankInit := by
  intro n a h
  simp only [bankInit, add_account, setAccount, Account.create] at h
  split_ifs at h
  · cases h
    norm_num
  · cases h
    norm_num
  · cases h
    norm_num
  · exact absurd h (by simp [emptyState])

/-! ## Claims -/

/-- Claim C1: starting from a ledger state in which every account balance is
nonnegative, every sequence of deposit, withdraw, transfer and check_balance
calls (whether each call succeeds or raises an error) leaves every account
balance nonnegative. -/
theorem c1_balances_nonneg (s : BankState) (ops : List Op)
    (h : BalancesNonneg s) : BalancesNonneg (runOps s ops) :=
  runOps_nonneg ops h

/-- Witness for C1 at the bootstrap ledger and the nine driver scenarios. -/
theorem c1_balances_nonneg_witness :
    BalancesNonneg bankInit ∧ BalancesNonneg (runOps bankInit demoOps) :=
  ⟨bankInit_nonneg, c1_balances_nonneg bankInit demoOps bankInit_nonneg⟩

/-- Claim C2: whenever a deposit, withdraw, transfer or check_balance call
fails with any error, the call changes nothing: the posterior ledger state is
exactly the prior state (so every balance, totalWithdrawnToday and
withdrawCount is untouched), since all validation precedes any mutation. -/
theorem c2_failed_call_no_mutation :
    (∀ (s : BankState) (n : String) (amt : ℚ) (e : BankError),
        (deposit s n amt).1 = Except.error e → (deposit s n amt).2 = s) ∧
    (∀ (s : BankState) (n : String) (amt : ℚ) (e : BankError),
        (withdraw s n amt).1 = Except.error e → (withdraw s n amt).2 = s) ∧
    (∀ (s : BankState) (f t : String) (amt : ℚ) (e : BankError),
        (transfer s f t amt).1 = Except.error e → (transfer s f t amt).2 = s) ∧
    (∀ (s : BankState) (n : String) (e : BankError),
        (check_balance s n).1 = Except.error e → (check_balance s n).2 = s) :=
  ⟨fun _ _ _ _ h => deposit_error_snd h,
   fun _ _ _ _ h => withdraw_error_snd h,
   fun _ _ _ _ _ h => transfer_error_snd h,
   fun s n _ _ => check_balance_snd s n⟩

/-- Witness for C2: a rejected negative deposit and a rejected over-limit
withdrawal leave the bootstrap ledger unchanged. -/
theorem c2_failed_call_no_mutation_witness :
    (deposit bankInit accNum1 (-100)).1 =
        Except.error (BankError.negativeAmount (-100)) ∧
    (deposit bankInit accNum1 (-100)).2 = bankInit ∧
    (withdraw bankInit accNum3 600).1 =
        Except.error (BankError.insufficientFunds accNum3 600 500) ∧
    (withdraw bankInit accNum3 600).2 = bankInit :=
  ⟨by decide,
   c2_failed_call_no_mutation.1 bankInit accNum1 (-100)
     (BankError.negativeAmount (-100)) (by decide),
   by decide,
   c2_failed_call_no_mutation.2.1 bankInit accNum3 600
     (BankError.insufficientFunds accNum3 600 500) (by decide)⟩

/-- Claim C8: in deposit, withdraw and transfer, amount validation precedes
the account lookup: for every account number, present or not, a negative
amount raises NegativeAmount and a zero amount raises ZeroAmount. -/
theorem c8_amount_validation_first :
    (∀ (s : BankState) (n : String) (amt : ℚ), amt < 0 →
        (deposit s n amt).1 = Except.error (BankError.negativeAmount amt)) ∧
    (∀ (s : BankState) (n : String) (amt : ℚ), amt = 0 →
        (deposit s n amt).1 = Except.error BankError.zeroAmount) ∧
    (∀ (s : BankState) (n : String) (amt : ℚ), amt < 0 →
        (withdraw s n amt).1 = Except.error (BankError.negativeAmount amt)) ∧
    (∀ (s : BankState) (n : String) (amt : ℚ), amt = 0 →
        (withdraw s n amt).1 = Except.error BankError.zeroAmount) ∧
    (∀ (s : BankState) (f t : String) (amt : ℚ), amt < 0 →
        (transfer s f t amt).1 = Except.error (BankError.negativeAmount amt)) ∧
    (∀ (s : BankState) (f t : String) (amt : ℚ), amt = 0 →
        (transfer s f t amt).1 = Except.error BankError.zeroAmount) := by
  refine ⟨?_, ?_, ?_, ?_, ?_, ?_⟩
  · intro s n amt h
    simp [deposit, h]
  · intro s n amt h
    subst h
    simp [deposit]
  · intro s n amt h
    simp [withdraw, h]
  · intro s n amt h
    subst h
    simp [withdraw]
  · intro s f t amt h
    simp [transfer, h]
  · intro s f t amt h
    subst h
    simp [transfer]

/-- Witness for C8 on the nonexistent account ACC999: the amount error is
reported, not AccountNotFound. -/
theorem c8_amount_validation_first_witness :
    bankInit accNum999 = none ∧
    (deposit bankInit accNum999 (-100)).1 =
        Except.error (BankError.negativeAmount (-100)) ∧
    (withdraw bankInit accNum999 0).1 = Except.error BankError.zeroAmount ∧
    (transfer bankInit accNum999 accNum1 (-3)).1 =
        Except.error (BankError.negativeAmount (-3)) :=
  ⟨by decide,
   c8_amount_validation_first.1 bankInit accNum999 (-100) (by decide),
   c8_amount_validation_first.2.2.2.1 bankInit accNum999 0 (by decide),
   c8_amount_validation_first.2.2.2.2.1 bankInit accNum999 accNum1 (-3) (by decide)⟩

/-- Counterexample to C7 as stated: an account created with a negative daily
limit violates totalWithdrawnToday <= dailyLimit from its creation on, even
after a (trivial) sequence of operations. -/
theorem c7_counterexample :
    ¬ TotalsWithinLimit (runOps negLimState [Op.check_balance accNum1]) := by
  intro h
  have h2 := h accNum1 (Account.create accNum1 holder1 100 checkingType (-1))
    (by decide)
  exact absurd h2 (by decide)

/-- Claim C7 (amended): for every ledger state in which each account
satisfies totalWithdrawnToday <= dailyLimit (as holds at account creation
whenever the daily limit is nonnegative, since creation zeroes the running
total), every sequence of operations preserves totalWithdrawnToday <=
dailyLimit: no successful withdraw or transfer-as-sender pushes the running
daily total past the daily limit. -/
theorem c7_totals_within_limit (s : BankState) (ops : List Op)
    (h : TotalsWithinLimit s) : TotalsWithinLimit (runOps s ops) :=
  runOps_totals ops h

/-- Witness for C7 at the bootstrap ledger and the nine driver scenarios. -/
theorem c7_totals_within_limit_witness :
    TotalsWithinLimit bankInit ∧ TotalsWithinLimit (runOps bankInit demoOps) :=
  ⟨bankInit_totals, c7_totals_within_limit bankInit demoOps bankInit_totals⟩

/-- Counterexample to C6 as stated: on a Savings account with three prior
successful withdrawals, a withdraw call with amount 0 fails with ZeroAmount,
not InvalidAccountType, because amount validation runs first; so the claim
is false for non-positive requested amounts. -/
theorem c6_counterexample :
    Option.map Account.withdraw_count (savAfter3 accNum1) = some 3 ∧
    Option.map Account.type (savAfter3 accNum1) = some savingsType ∧
    (withdraw savAfter3 accNum1 0).1 = Except.error BankError.zeroAmount ∧
    (withdraw savAfter3 accNum1 0).1 ≠
      Except.error (BankError.invalidAccountType accNum1 savingsType) := by
  refine ⟨by decide, by decide, by decide, by decide⟩

/-- Claim C6 (amended): on a Savings account whose withdrawCount has reached
3, every withdraw call with a positive requested amount fails with
InvalidAccountType, regardless of the amount and of the balance. -/
theorem c6_savings_cap (s : BankState) (n : String) (amt : ℚ) (a : Account)
    (ha : s n = some a) (htype : a.type = savingsType)
    (hcount : a.withdraw_count ≥ 3) (hpos : 0 < amt) :
    (withdraw s n amt).1 =
      Except.error (BankError.invalidAccountType a.number a.type) := by
  have h1 : ¬ amt < 0 := not_lt.mpr hpos.le
  have h2 : ¬ amt = 0 := hpos.ne.symm
  unfold withdraw
  simp only [if_neg h1, if_neg h2, getAccount_of_some ha,
    if_pos (And.intro htype hcount)]

/-- Witness for C6: the capped Savings account rejects a withdrawal of 50
despite a balance of 4700. -/
theorem c6_savings_cap_witness :
    savAfter3 accNum1 =
      some { number := accNum1, holder := holder1, balance := 4700,
             type := savingsType, daily_limit := 1000,
             total_withdrawn_today := 300, withdraw_count := 3 } ∧
    (withdraw savAfter3 accNum1 50).1 =
      Except.error (BankError.invalidAccountType accNum1 savingsType) :=
  ⟨by decide,
   c6_savings_cap savAfter3 accNum1 50
     { number := accNum1, holder := holder1, balance := 4700,
       type := savingsType, daily_limit := 1000,
       total_withdrawn_today := 300, withdraw_count := 3 }
     (by decide) (by decide) (by decide) (by decide)⟩

/-- Claim C3: once amount validation and account lookup pass, withdraw
applies its checks in the fixed order type-cap, then funds, then daily
limit, and transfer applies only funds then daily limit on the sender (no
type-cap); the first failing check determines the single error raised, with
the payloads built exactly as in the source. -/
theorem c3_check_order :
    (∀ (s : BankState) (n : String) (amt : ℚ) (a : Account),
        0 < amt → s n = some a →
        ((a.type = savingsType ∧ a.withdraw_count ≥ 3 →
            (withdraw s n amt).1 =
              Except.error (BankError.invalidAccountType a.number a.type)) ∧
         (¬ (a.type = savingsType ∧ a.withdraw_count ≥ 3) → a.balance < amt →
            (withdraw s n amt).1 =
              Except.error (BankError.insufficientFunds a.number amt a.balance)) ∧
         (¬ (a.type = savingsType ∧ a.withdraw_count ≥ 3) → ¬ a.balance < amt →
            a.total_withdrawn_today + amt > a.daily_limit →
            (withdraw s n amt).1 =
              Except.error (BankError.dailyLimitExceeded a.number amt
                (a.daily_limit - a.total_withdrawn_today))) ∧
         (¬ (a.type = savingsType ∧ a.withdraw_count ≥ 3) → ¬ a.balance < amt →
            ¬ a.total_withdrawn_today + amt > a.daily_limit →
            (withdraw s n amt).1 = Except.ok ()))) ∧
    (∀ (s : BankState) (f t : String) (amt : ℚ) (sender receiver : Account),
        0 < amt → s f = some sender → s t = some receiver →
        ((sender.balance < amt →
            (transfer s f t amt).1 =
              Except.error
                (BankError.insufficientFunds sender.number amt sender.balance)) ∧
         (¬ sender.balance < amt →
            sender.total_withdrawn_today + amt > sender.daily_limit →
            (transfer s f t amt).1 =
              Except.error (BankError.dailyLimitExceeded sender.number amt
                (sender.daily_limit - sender.total_withdrawn_today))) ∧
         (¬ sender.balance < amt →
            ¬ sender.total_withdrawn_today + amt > sender.daily_limit →
            (transfer s f t amt).1 = Except.ok ()))) := by
  constructor
  · intro s n amt a hpos ha
    have h1 : ¬ amt < 0 := not_lt.mpr hpos.le
    have h2 : ¬ amt = 0 := hpos.ne.symm
    have hg := getAccount_of_some ha
    refine ⟨?_, ?_, ?_, ?_⟩
    · intro hc
      unfold withdraw
      simp only [if_neg h1, if_neg h2, hg, if_pos hc]
    · intro hc hf
      unfold withdraw
      simp only [if_neg h1, if_neg h2, hg, if_neg hc, if_pos hf]
    · intro hc hf hl
      unfold withdraw
      simp only [if_neg h1, if_neg h2, hg, if_neg hc, if_neg hf, if_pos hl]
    · intro hc hf hl
      unfold withdraw
      simp only [if_neg h1, if_neg h2, hg, if_neg hc, if_neg hf, if_neg hl]
  · intro s f t amt sender receiver hpos hsf hst
    have h1 : ¬ amt < 0 := not_lt.mpr hpos.le
    have h2 : ¬ amt = 0 := hpos.ne.symm
    have hgf := getAccount_of_some hsf
    have hgt := getAccount_of_some hst
    refine ⟨?_, ?_, ?_⟩
    · intro hf
      unfold transfer
      simp only [if_neg h1, if_neg h2, hgf, hgt, if_pos hf]
    · intro hf hl
      unfold transfer
      simp only [if_neg h1, if_neg h2, hgf, hgt, if_neg hf, if_pos hl]
    · intro hf hl
      unfold transfer
      simp only [if_neg h1, if_neg h2, hgf, hgt, if_neg hf, if_neg hl]

/-- Witness for C3: the insufficient-funds check fires on ACC003 and the
daily-limit check fires on ACC001 after an 800 withdrawal, with the exact
payloads; a Savings sender over the cap still passes the transfer checks. -/
theorem c3_check_order_witness :
    bankInit accNum3 = some (Account.create accNum3 holder3 500 savingsType 500) ∧
    (withdraw bankInit accNum3 600).1 =
      Except.error (BankError.insufficientFunds accNum3 600 500) ∧
    (transfer savAfter3 accNum1 accNum1 100).1 = Except.ok () :=
  ⟨by decide,
   (c3_check_order.1 bankInit accNum3 600
       (Account.create accNum3 holder3 500 savingsType 500)
       (by decide) (by decide)).2.1 (by decide) (by decide),
   ((c3_check_order.2 savAfter3 accNum1 accNum1 100
       { number := accNum1, holder := holder1, balance := 4700,
         type := savingsType, daily_limit := 1000,
         total_withdrawn_today := 300, withdraw_count := 3 }
       { number := accNum1, holder := holder1, balance := 4700,
         type := savingsType, daily_limit := 1000,
         total_withdrawn_today := 300, withdraw_count := 3 }
       (by decide) (by decide) (by decide)).2.2 (by decide) (by decide))⟩

/-- Claim C4: a withdraw call with a positive amount on an existing account
that is not a capped Savings account, has sufficient balance, and stays
within the daily limit succeeds, and its effect on that account is exactly
a balance decrease by the amount, a daily-total increase by the amount and a
withdraw-count increase by one. -/
theorem c4_withdraw_success (s : BankState) (n : String) (amt : ℚ)
    (a : Account) (hpos : 0 < amt) (ha : s n = some a)
    (hc : ¬ (a.type = savingsType ∧ a.withdraw_count ≥ 3))
    (hf : amt ≤ a.balance)
    (hl : a.total_withdrawn_today + amt ≤ a.daily_limit) :
    (withdraw s n amt).1 = Except.ok () ∧
    (withdraw s n amt).2 n =
      some { a with
             balance := a.balance - amt,
             total_withdrawn_today := a.total_withdrawn_today + amt,
             withdraw_count := a.withdraw_count + 1 } := by
  rw [withdraw_ok_eq hpos ha hc (not_lt.mpr hf) (not_lt.mpr hl)]
  exact ⟨rfl, by simp [setAccount]⟩

/-- Witness for C4: withdrawing 800 from ACC001 leaves balance 4200, daily
total 800 and count 1. -/
theorem c4_withdraw_success_witness :
    bankInit accNum1 = some (Account.create accNum1 holder1 5000 savingsType 1000) ∧
    (withdraw bankInit accNum1 800).1 = Except.ok () ∧
    (withdraw bankInit accNum1 800).2 accNum1 =
      some { number := accNum1, holder := holder1, balance := 4200,
             type := savingsType, daily_limit := 1000,
             total_withdrawn_today := 800, withdraw_count := 1 } := by
  have h := c4_withdraw_success bankInit accNum1 800
    (Account.create accNum1 holder1 5000 savingsType 1000)
    (by decide) (by decide) (by decide) (by decide) (by decide)
  exact ⟨by decide, h.1, h.2.trans (by decide)⟩

/-- Claim C5: a transfer call with a positive amount between two existing
accounts succeeds whenever the sender has sufficient balance and stays
within its daily limit — regardless of the sender type and withdraw count,
since the Savings cap is never applied to transfers — and for distinct
accounts its effects are exactly a sender debit, a receiver credit and a
sender daily-total increase, the receiver daily total and withdraw count
being untouched. -/
theorem c5_transfer_success (s : BankState) (f t : String) (amt : ℚ)
    (sender receiver : Account) (hpos : 0 < amt)
    (hsf : s f = some sender) (hst : s t = some receiver)
    (hbal : amt ≤ sender.balance)
    (hlim : sender.total_withdrawn_today + amt ≤ sender.daily_limit) :
    (transfer s f t amt).1 = Except.ok () ∧
    (f ≠ t →
      (transfer s f t amt).2 f =
        some { sender with
               balance := sender.balance - amt,
               total_withdrawn_today := sender.total_withdrawn_today + amt } ∧
      (transfer s f t amt).2 t =
        some { receiver with balance := receiver.balance + amt }) := by
  rw [transfer_ok_eq hpos hsf hst (not_lt.mpr hbal) (not_lt.mpr hlim)]
  refine ⟨rfl, fun hft => ⟨?_, ?_⟩⟩
  · simp [modifyAccount, hft, hsf]
  · simp [modifyAccount, hft, Ne.symm hft, hst]

/-- Witness for C5: transferring 200 from ACC002 to ACC001 debits the
sender, credits the receiver and bumps only the sender daily total. -/
theorem c5_transfer_success_witness :
    bankInit accNum2 = some (Account.create accNum2 holder2 15000 checkingType 5000) ∧
    (transfer bankInit accNum2 accNum1 200).1 = Except.ok () ∧
    (transfer bankInit accNum2 accNum1 200).2 accNum2 =
      some { number := accNum2, holder := holder2, balance := 14800,
             type := checkingType, daily_limit := 5000,
             total_withdrawn_today := 200, withdraw_count := 0 } ∧
    (transfer bankInit accNum2 accNum1 200).2 accNum1 =
      some { number := accNum1, holder := holder1, balance := 5200,
             type := savingsType, daily_limit := 1000,
             total_withdrawn_today := 0, withdraw_count := 0 } := by
  have h := c5_transfer_success bankInit accNum2 accNum1 200
    (Account.create accNum2 holder2 15000 checkingType 5000)
    (Account.create accNum1 holder1 5000 savingsType 1000)
    (by decide) (by decide) (by decide) (by decide) (by decide)
  obtain ⟨hsender, hreceiver⟩ := h.2 (by decide)
  exact ⟨by decide, h.1, hsender.trans (by decide), hreceiver.trans (by decide)⟩

/-- Claim C9: a self-transfer with a positive amount on an existing account
with sufficient balance and remaining daily allowance succeeds, leaves the
balance unchanged (the debit and the credit cancel on the same account),
and still increases the daily total by the amount. -/
theorem c9_self_transfer (s : BankState) (n : String) (amt : ℚ) (a : Account)
    (hpos : 0 < amt) (ha : s n = some a) (hbal : amt ≤ a.balance)
    (hlim : a.total_withdrawn_today + amt ≤ a.daily_limit) :
    (transfer s n n amt).1 = Except.ok () ∧
    (transfer s n n amt).2 n =
      some { a with total_withdrawn_today := a.total_withdrawn_today + amt } := by
  rw [transfer_ok_eq hpos ha ha (not_lt.mpr hbal) (not_lt.mpr hlim)]
  refine ⟨rfl, ?_⟩
  have hb : a.balance - amt + amt = a.balance := by ring
  simp [modifyAccount, ha, hb]

/-- Witness for C9: a self-transfer of 300 on ACC001 keeps balance 5000 and
raises the daily total to 300. -/
theorem c9_self_transfer_witness :
    bankInit accNum1 = some (Account.create accNum1 holder1 5000 savingsType 1000) ∧
    (transfer bankInit accNum1 accNum1 300).1 = Except.ok () ∧
    (transfer bankInit accNum1 accNum1 300).2 accNum1 =
      some { number := accNum1, holder := holder1, balance := 5000,
             type := savingsType, daily_limit := 1000,
             total_withdrawn_today := 300, withdraw_count := 0 } := by
  have h := c9_self_transfer bankInit accNum1 300
    (Account.create accNum1 holder1 5000 savingsType 1000)
    (by decide) (by decide) (by decide) (by decide)
  exact ⟨by decide, h.1, h.2.trans (by decide)⟩

/-- Claim C10: no operation modifies the number, holder, type or dailyLimit
of any stored account, and no operation touches any account other than
those named in the call: deposit and withdraw touch at most the named
account, transfer touches at most sender and receiver, and check_balance
touches nothing. -/
theorem c10_frame_and_metadata :
    (∀ (s : BankState) (n : String) (amt : ℚ) (m : String), m ≠ n →
        (deposit s n amt).2 m = s m) ∧
    (∀ (s : BankState) (n : String) (amt : ℚ) (m : String), m ≠ n →
        (withdraw s n amt).2 m = s m) ∧
    (∀ (s : BankState) (f t : String) (amt : ℚ) (m : String), m ≠ f → m ≠ t →
        (transfer s f t amt).2 m = s m) ∧
    (∀ (s : BankState) (n : String), (check_balance s n).2 = s) ∧
    (∀ (s : BankState) (n : String) (amt : ℚ) (m : String) (a b : Account),
        s m = some a → (deposit s n amt).2 m = some b → sameMeta a b) ∧
    (∀ (s : BankState) (n : String) (amt : ℚ) (m : String) (a b : Account),
        s m = some a → (withdraw s n amt).2 m = some b → sameMeta a b) ∧
    (∀ (s : BankState) (f t : String) (amt : ℚ) (m : String) (a b : Account),
        s m = some a → (transfer s f t amt).2 m = some b → sameMeta a b) :=
  ⟨fun _ _ _ _ hm => deposit_frame hm,
   fun _ _ _ _ hm => withdraw_frame hm,
   fun _ _ _ _ _ hmf hmt => transfer_frame hmf hmt,
   fun s n => check_balance_snd s n,
   fun _ _ _ _ _ _ ha hb => deposit_meta ha hb,
   fun _ _ _ _ _ _ ha hb => withdraw_meta ha hb,
   fun _ _ _ _ _ _ _ ha hb => transfer_meta ha hb⟩

/-- Witness for C10: a withdrawal on ACC001 leaves ACC002 untouched, a
transfer between ACC002 and ACC001 leaves ACC003 untouched, check_balance
leaves the whole ledger untouched, and the metadata of ACC001 survives its
own withdrawal. -/
theorem c10_frame_and_metadata_witness :
    (withdraw bankInit accNum1 800).2 accNum2 = bankInit accNum2 ∧
    (transfer bankInit accNum2 accNum1 200).2 accNum3 = bankInit accNum3 ∧
    (check_balance bankInit accNum1).2 = bankInit ∧
    sameMeta (Account.create accNum1 holder1 5000 savingsType 1000)
      { number := accNum1, holder := holder1, balance := 4200,
        type := savingsType, daily_limit := 1000,
        total_withdrawn_today := 800, withdraw_count := 1 } :=
  ⟨c10_frame_and_metadata.2.1 bankInit accNum1 800 accNum2 (by decide),
   c10_frame_and_metadata.2.2.1 bankInit accNum2 accNum1 200 accNum3
     (by decide) (by decide),
   c10_frame_and_metadata.2.2.2.1 bankInit accNum1,
   c10_frame_and_metadata.2.2.2.2.2.1 bankInit accNum1 800 accNum1
     (Account.create accNum1 holder1 5000 savingsType 1000)
     { number := accNum1, holder := holder1, balance := 4200,
       type := savingsType, daily_limit := 1000,
       total_withdrawn_today := 800, withdraw_count := 1 }
     (by decide) (by decide)⟩
